import Mathlib

/-!
# T-Encoder-Pro UI test firmware: knob button debounce and screen dispatcher

A shallow embedding of `01-UI-Test/PIO/src/main.cpp`.

* The global variables of `main.cpp` (and the two knob variables declared in
  `knob.h`) are the fields of `State`.
* Calls into LVGL, the display driver and the buzzer are recorded, in call
  order, in `State.trace`.  `Serial` debug output is not recorded.
* `int` variables are `Int`.  Every `+ 1`, `- 1`, `+= 5`, `-= 5` of the source
  is guarded by a comparison with a small constant, so no 32-bit `int`
  operation of the modelled code can overflow and no reduction is needed.
  `unsigned long` (32 bits on the ESP32) is `Nat` with an explicit
  reduction modulo `2 ^ 32` in the one subtraction the source performs.
* Reading `icons[menuIndex]` with `menuIndex` outside the six-element array
  is undefined behaviour; `updateIconFocus` returns `none` there.
-/

namespace TEncode

/-! ## Data model -/

/-- Source `enum Screen`. -/
inductive Screen
  | WATCH
  | MENU
  | BRIGHTNESS
  | WEATHER
  deriving DecidableEq, Repr

/-- Level returned by `digitalRead`. -/
inductive Level
  | LOW
  | HIGH
  deriving DecidableEq, Repr

/-- The three clock hand images `ui_hour_hand`, `ui_minute_hand`, `ui_second_hand`. -/
inductive Hand
  | hour
  | minute
  | second
  deriving DecidableEq, Repr

/-- The two timer callbacks created by `initializeWatchScreen`: the per-second
hand update and the one-shot callback that resumes it. -/
inductive TimerCb
  | update
  | start
  deriving DecidableEq, Repr

/-- External calls made by the modelled code, with their arguments. -/
inductive Effect
  | scr_load (screen : Screen)
  | img_set_angle (hand : Hand) (angle : Int)
  | anim_start (hand : Hand) (startValue endValue : Int) (time delay : Nat)
  | timer_create (cb : TimerCb) (period : Nat)
  | timer_pause
  | img_set_zoom (icon : Int) (zoom : Nat)
  | obj_invalidate (icon : Int)
  | obj_scroll_to_view (icon : Int)
  | arc_set_value (value : Int)
  | Display_Brightness (value : Int)
  | label_set_text (text : List Char)
  | tone (frequency duration : Nat)
  deriving DecidableEq, Repr

/-- Source `#define TOTAL_MENU_ICONS 6`. -/
def TOTAL_MENU_ICONS : Int := 6

/-- Source `#define MAX_BRIGHTNESS 255`. -/
def MAX_BRIGHTNESS : Int := 255

/-- Source `#define MIN_BRIGHTNESS 0`. -/
def MIN_BRIGHTNESS : Int := 0

/-- Source `const unsigned long debounceDelay = 200;`. -/
def debounceDelay : Nat := 200

/-- Enumerator `KNOB_NULL` of `enum KNOB_State` in `knob.h`. -/
def KNOB_NULL : Nat := 0

/-- Enumerator `KNOB_INCREMENT` of `enum KNOB_State` in `knob.h`. -/
def KNOB_INCREMENT : Nat := 1

/-- Enumerator `KNOB_DECREMENT` of `enum KNOB_State` in `knob.h`. -/
def KNOB_DECREMENT : Nat := 2

/-- The global variables read or written by the modelled functions.
`KNOB_State_Flag` is a `uint8_t`; it is only ever compared for equality. -/
structure State where
  currentScreen : Screen
  menuIndex : Int
  brightnessLevel : Int
  KNOB_Trigger_Flag : Bool
  KNOB_State_Flag : Nat
  lastKnobKeyPressTime : Nat
  is_first_load : Bool
  mock_hour : Int
  mock_minute : Int
  mock_second : Int
  trace : List Effect
  deriving DecidableEq, Repr

/-- The values given by the initialisers of `main.cpp`.  The two knob variables
are defined in `knob.cpp`, which is not part of the sources; they are
parameters here. -/
def initialState (flag : Bool) (dir : Nat) : State :=
  { currentScreen := Screen.WATCH
    menuIndex := 0
    brightnessLevel := 255
    KNOB_Trigger_Flag := flag
    KNOB_State_Flag := dir
    lastKnobKeyPressTime := 0
    is_first_load := true
    mock_hour := 10
    mock_minute := 15
    mock_second := 30
    trace := [] }

/-- Record one external call. -/
def emit (e : Effect) (s : State) : State :=
  { s with trace := s.trace ++ [e] }

/-- The calls recorded in `s2` after those already recorded in `s1`. -/
def emitted (s1 s2 : State) : List Effect :=
  s2.trace.drop s1.trace.length

/-! ## Watch screen -/

/-- Angle of the hour hand in degrees, `(mock_hour % 12) * 30 + (mock_minute / 2)`,
with the truncating `%` and `/` of C. -/
def hour_angle (s : State) : Int :=
  (Int.tmod s.mock_hour 12) * 30 + Int.tdiv s.mock_minute 2

/-- Angle of the minute hand in degrees. -/
def minute_angle (s : State) : Int :=
  s.mock_minute * 6

/-- Angle of the second hand in degrees. -/
def second_angle (s : State) : Int :=
  s.mock_second * 6

/-- Source `set_hand_positions`. -/
def set_hand_positions (s : State) : State :=
  emit (Effect.img_set_angle Hand.second (second_angle s * 10))
    (emit (Effect.img_set_angle Hand.minute (minute_angle s * 10))
      (emit (Effect.img_set_angle Hand.hour (hour_angle s * 10)) s))

/-- Source `animate_clock_hands_on_load`. -/
def animate_clock_hands_on_load (s : State) : State :=
  if s.is_first_load = false then s
  else
    let s1 := emit (Effect.anim_start Hand.hour 0 (hour_angle s * 10) 1000 200) s
    let s2 := emit (Effect.anim_start Hand.minute 0 (minute_angle s * 10) 1000 100) s1
    let s3 := emit (Effect.anim_start Hand.second 0 (second_angle s * 10) 1000 0) s2
    { s3 with is_first_load := false }

/-- Source `update_clock_hands`. -/
def update_clock_hands (s : State) : State :=
  let s1 := { s with mock_second := s.mock_second + 1 }
  let s2 :=
    if s1.mock_second ≥ 60 then
      let s1a := { s1 with mock_second := 0, mock_minute := s1.mock_minute + 1 }
      if s1a.mock_minute ≥ 60 then
        { s1a with mock_minute := 0, mock_hour := Int.tmod (s1a.mock_hour + 1) 12 }
      else s1a
    else s1
  emit (Effect.img_set_angle Hand.second (second_angle s2 * 10))
    (emit (Effect.img_set_angle Hand.minute (minute_angle s2 * 10))
      (emit (Effect.img_set_angle Hand.hour (hour_angle s2 * 10)) s2))

/-- Source `initializeWatchScreen`. -/
def initializeWatchScreen (s : State) : State :=
  let s1 := set_hand_positions s
  if s1.is_first_load = true then
    let s2 := animate_clock_hands_on_load s1
    let s3 := emit (Effect.timer_create TimerCb.update 1000) s2
    let s4 := emit Effect.timer_pause s3
    emit (Effect.timer_create TimerCb.start 1200) s4
  else
    set_hand_positions s1

/-! ## Screen management -/

/-- Source `showWatchScreen`. -/
def showWatchScreen (s : State) : State :=
  initializeWatchScreen (emit (Effect.scr_load Screen.WATCH) s)

/-- Source `showMenuScreen`. -/
def showMenuScreen (s : State) : State :=
  emit (Effect.scr_load Screen.MENU) s

/-- Source `showBrightnessScreen`. -/
def showBrightnessScreen (s : State) : State :=
  emit (Effect.scr_load Screen.BRIGHTNESS) s

/-- Source `showWeatherScreen`. -/
def showWeatherScreen (s : State) : State :=
  emit (Effect.scr_load Screen.WEATHER) s

/-- Source `switchScreen`. -/
def switchScreen (screen : Screen) (s : State) : State :=
  let s1 := { s with currentScreen := screen }
  match s1.currentScreen with
  | Screen.WATCH => showWatchScreen s1
  | Screen.MENU => showMenuScreen s1
  | Screen.BRIGHTNESS => showBrightnessScreen s1
  | Screen.WEATHER => showWeatherScreen s1

/-! ## Button debounce -/

/-- Subtraction of two `unsigned long` values (32 bits). -/
def sub32 (a b : Nat) : Nat :=
  (a % 2 ^ 32 + 2 ^ 32 - b % 2 ^ 32) % 2 ^ 32

/-- Source `isKnobKeyPressed`.  `key` is what `digitalRead(KNOB_KEY)` returns
and `currentMillis` what `millis()` returns. -/
def isKnobKeyPressed (key : Level) (currentMillis : Nat) (s : State) : Bool × State :=
  let isPressed : Bool := decide (key = Level.LOW)
  if isPressed = true ∧ sub32 currentMillis s.lastKnobKeyPressTime ≥ debounceDelay then
    (true, { s with lastKnobKeyPressTime := currentMillis })
  else
    (false, s)

/-- Source `playBuzzer`. -/
def playBuzzer (s : State) : State :=
  emit (Effect.tone 1000 100) s

/-! ## Menu -/

/-- Source `updateIconFocus`.  The array `icons` has `TOTAL_MENU_ICONS`
elements; indexing it with the old `menuIndex` out of range gives `none`. -/
def updateIconFocus (newIndex : Int) (s : State) : Option State :=
  if newIndex < 0 ∨ newIndex ≥ TOTAL_MENU_ICONS then some s
  else if 0 ≤ s.menuIndex ∧ s.menuIndex < TOTAL_MENU_ICONS then
    let s1 := emit (Effect.img_set_zoom s.menuIndex 256) s
    let s2 := { s1 with menuIndex := newIndex }
    let s3 := emit (Effect.img_set_zoom s2.menuIndex 350) s2
    let s4 := emit (Effect.obj_invalidate s3.menuIndex) s3
    some (emit (Effect.obj_scroll_to_view s4.menuIndex) s4)
  else none

/-- Source `handle_knob_for_menu`. -/
def handle_knob_for_menu (s : State) : Option State :=
  if s.KNOB_Trigger_Flag = true then
    let s1 := { s with KNOB_Trigger_Flag := false }
    if s1.KNOB_State_Flag = KNOB_INCREMENT ∧ s1.menuIndex < TOTAL_MENU_ICONS - 1 then
      updateIconFocus (s1.menuIndex + 1) s1
    else if s1.KNOB_State_Flag = KNOB_DECREMENT ∧ s1.menuIndex > 0 then
      updateIconFocus (s1.menuIndex - 1) s1
    else some s1
  else some s

/-- Source `handle_knob_keypress_in_menu`. -/
def handle_knob_keypress_in_menu (s : State) : State :=
  if s.currentScreen ≠ Screen.MENU then s
  else if s.menuIndex = 0 then switchScreen Screen.BRIGHTNESS s
  else if s.menuIndex = 1 then switchScreen Screen.WATCH s
  else if s.menuIndex = 4 then switchScreen Screen.WEATHER s
  else s

/-! ## Brightness -/

/-- Arduino core `long map(long x, long in_min, long in_max, long out_min, long out_max)`:
`-1` when the input range is empty, otherwise
`(x - in_min) * (out_max - out_min) / (in_max - in_min) + out_min` with the
truncating division of C. -/
def map (x in_min in_max out_min out_max : Int) : Int :=
  if in_max - in_min = 0 then -1
  else Int.tdiv ((x - in_min) * (out_max - out_min)) (in_max - in_min) + out_min

/-- Text produced by the `printf` conversion `%d`. -/
def fmt_d (v : Int) : List Char :=
  if v < 0 then '-' :: Nat.toDigits 10 v.natAbs else Nat.toDigits 10 v.toNat

/-- Characters stored by `snprintf(buf, size, "%d", v)` before the terminating
zero byte: at most `size - 1` of them. -/
def snprintf_d (size : Nat) (v : Int) : List Char :=
  (fmt_d v).take (size - 1)

/-- Source `handle_knob_for_brightness`. -/
def handle_knob_for_brightness (s : State) : State :=
  if s.KNOB_Trigger_Flag = true then
    let s1 := { s with KNOB_Trigger_Flag := false }
    let s2 :=
      if s1.KNOB_State_Flag = KNOB_INCREMENT ∧ s1.brightnessLevel < MAX_BRIGHTNESS then
        let t := { s1 with brightnessLevel := s1.brightnessLevel + 5 }
        if t.brightnessLevel > MAX_BRIGHTNESS then { t with brightnessLevel := MAX_BRIGHTNESS }
        else t
      else if s1.KNOB_State_Flag = KNOB_DECREMENT ∧ s1.brightnessLevel > MIN_BRIGHTNESS then
        let t := { s1 with brightnessLevel := s1.brightnessLevel - 5 }
        if t.brightnessLevel < MIN_BRIGHTNESS then { t with brightnessLevel := MIN_BRIGHTNESS }
        else t
      else s1
    let arcValue := map s2.brightnessLevel MIN_BRIGHTNESS MAX_BRIGHTNESS 0 100
    let s3 := emit (Effect.arc_set_value arcValue) s2
    let s4 := emit (Effect.Display_Brightness s3.brightnessLevel) s3
    emit (Effect.label_set_text (snprintf_d 4 arcValue)) s4
  else s

/-! ## Main loop -/

/-- What the environment supplies to one pass of `loop`.
`fired` is the number of times LVGL's timer handler runs the hand-update
callback during `lv_timer_handler()`; `scan` is the effect of
`KNOB_Logical_Scan_Loop()` (defined in `knob.cpp`, not part of the sources) on
`(KNOB_Trigger_Flag, KNOB_State_Flag)`; `key` is the level of `KNOB_KEY` and
`now` the value of `millis()` read by `isKnobKeyPressed`. -/
structure TickInput where
  fired : Nat
  scan : Bool × Nat → Bool × Nat
  key : Level
  now : Nat

/-- The button-press branch of `loop`: the body of `if (isKnobKeyPressed())`. -/
def handleKeyPress (s : State) : State :=
  let s1 := playBuzzer s
  match s1.currentScreen with
  | Screen.WATCH => switchScreen Screen.MENU s1
  | Screen.MENU => handle_knob_keypress_in_menu s1
  | Screen.WEATHER => switchScreen Screen.MENU s1
  | Screen.BRIGHTNESS => switchScreen Screen.MENU s1

/-- Source `loop`. -/
def loop (i : TickInput) (s : State) : Option State :=
  let s0 := Nat.iterate update_clock_hands i.fired s
  let k := i.scan (s0.KNOB_Trigger_Flag, s0.KNOB_State_Flag)
  let s1 := { s0 with KNOB_Trigger_Flag := k.1, KNOB_State_Flag := k.2 }
  (if s1.currentScreen = Screen.MENU then handle_knob_for_menu s1 else some s1).bind
    fun s2 =>
      let s3 := if s2.currentScreen = Screen.BRIGHTNESS then handle_knob_for_brightness s2 else s2
      let r := isKnobKeyPressed i.key i.now s3
      if r.1 = true then some (handleKeyPress r.2) else some r.2

/-- Run `loop` once for each input, stopping at undefined behaviour. -/
def runLoop : List TickInput → State → Option State
  | [], s => some s
  | i :: is, s => (loop i s).bind (runLoop is)

/-- Modelled from the spec: `KNOB_Logical_Scan_Loop` of `knob.cpp` (not part of
the sources).  When a step boundary was crossed (`step = some d`) it sets the
trigger flag and the direction `d`; otherwise it leaves both unchanged. -/
def KNOB_Logical_Scan_Loop (step : Option Nat) (k : Bool × Nat) : Bool × Nat :=
  match step with
  | some d => (true, d)
  | none => k

/-- Successive `switchScreen` calls. -/
def switchScreens : List Screen → State → State
  | [], s => s
  | x :: xs, s => switchScreens xs (switchScreen x s)

/-- Successive `isKnobKeyPressed` calls; returns the results in call order and
the final state. -/
def pollKey : List (Level × Nat) → State → List Bool × State
  | [], s => ([], s)
  | c :: cs, s =>
    let r := isKnobKeyPressed c.1 c.2 s
    let rest := pollKey cs r.2
    (r.1 :: rest.1, rest.2)

/-- The decoder raises a step event with direction `d`: the state after
`KNOB_Logical_Scan_Loop` crossed a step boundary. -/
def knobStep (d : Nat) (s : State) : State :=
  let k := KNOB_Logical_Scan_Loop (some d) (s.KNOB_Trigger_Flag, s.KNOB_State_Flag)
  { s with KNOB_Trigger_Flag := k.1, KNOB_State_Flag := k.2 }

/-- The brightness handler consuming `n` consecutive DECREMENT events. -/
def brightnessDecrements (n : Nat) (s : State) : State :=
  Nat.iterate (fun t => handle_knob_for_brightness (knobStep KNOB_DECREMENT t)) n s

/-- The brightness level after one consumed event, as the source computes it. -/
def steppedBrightness (dir : Nat) (b : Int) : Int :=
  if dir = KNOB_INCREMENT ∧ b < MAX_BRIGHTNESS then
    (if b + 5 > MAX_BRIGHTNESS then MAX_BRIGHTNESS else b + 5)
  else if dir = KNOB_DECREMENT ∧ b > MIN_BRIGHTNESS then
    (if b - 5 < MIN_BRIGHTNESS then MIN_BRIGHTNESS else b - 5)
  else b

/-- The menu index after one consumed event, as the source computes it. -/
def steppedMenuIndex (dir : Nat) (i : Int) : Int :=
  if dir = KNOB_INCREMENT ∧ i < TOTAL_MENU_ICONS - 1 then i + 1
  else if dir = KNOB_DECREMENT ∧ i > 0 then i - 1
  else i

/-- The calls `updateIconFocus` makes when the focus moves from icon `i` to icon `j`. -/
def focusEffects (i j : Int) : List Effect :=
  [Effect.img_set_zoom i 256, Effect.img_set_zoom j 350, Effect.obj_invalidate j,
    Effect.obj_scroll_to_view j]

/-- The state of one pass of `loop` after `lv_timer_handler()` and
`KNOB_Logical_Scan_Loop()`, before the screen handlers run. -/
def scanned (i : TickInput) (s : State) : State :=
  let s0 := Nat.iterate update_clock_hands i.fired s
  let k := i.scan (s0.KNOB_Trigger_Flag, s0.KNOB_State_Flag)
  { s0 with KNOB_Trigger_Flag := k.1, KNOB_State_Flag := k.2 }

/-- Calls that start a hand animation or create a timer. -/
def isSetupEffect : Effect → Bool
  | Effect.anim_start _ _ _ _ _ => true
  | Effect.timer_create _ _ => true
  | _ => false

/-- The three `lv_img_set_angle` calls of `set_hand_positions`. -/
def handEffects (s : State) : List Effect :=
  [Effect.img_set_angle Hand.hour (hour_angle s * 10),
    Effect.img_set_angle Hand.minute (minute_angle s * 10),
    Effect.img_set_angle Hand.second (second_angle s * 10)]

/-- The calls made by `switchScreen(WATCH)` on the first load: screen load,
hand positions, the three animations, the paused hand-update timer and the
start timer. -/
def watchFirstLoadEffects (s : State) : List Effect :=
  Effect.scr_load Screen.WATCH :: handEffects s ++
    [Effect.anim_start Hand.hour 0 (hour_angle s * 10) 1000 200,
      Effect.anim_start Hand.minute 0 (minute_angle s * 10) 1000 100,
      Effect.anim_start Hand.second 0 (second_angle s * 10) 1000 0,
      Effect.timer_create TimerCb.update 1000,
      Effect.timer_pause,
      Effect.timer_create TimerCb.start 1200]

/-- The calls made by `switchScreen(WATCH)` on a later load: screen load and the
hand positions, set twice. -/
def watchReloadEffects (s : State) : List Effect :=
  Effect.scr_load Screen.WATCH :: handEffects s ++ handEffects s

/-- A run of consecutive reads with the button LOW, at the given clock readings. -/
def activeRun (ts : List Nat) : List (Level × Nat) :=
  ts.map fun t => (Level.LOW, t)

/-- The transition table of the specification: the screen shown after a button
press, as a function of the current screen and the focused menu icon. -/
def nextScreen : Screen → Int → Screen
  | Screen.WATCH, _ => Screen.MENU
  | Screen.BRIGHTNESS, _ => Screen.MENU
  | Screen.WEATHER, _ => Screen.MENU
  | Screen.MENU, i =>
    if i = 0 then Screen.BRIGHTNESS
    else if i = 1 then Screen.WATCH
    else if i = 4 then Screen.WEATHER
    else Screen.MENU

/-- Two states agree on the dispatcher and decoder variables. -/
def sameCore (s t : State) : Prop :=
  t.currentScreen = s.currentScreen ∧ t.menuIndex = s.menuIndex ∧
  t.brightnessLevel = s.brightnessLevel ∧ t.KNOB_Trigger_Flag = s.KNOB_Trigger_Flag ∧
  t.KNOB_State_Flag = s.KNOB_State_Flag ∧ t.lastKnobKeyPressTime = s.lastKnobKeyPressTime

/-- Range invariant of the dispatcher: the menu index addresses one of the
icons and the brightness level is within its bounds. -/
def Inv (s : State) : Prop :=
  0 ≤ s.menuIndex ∧ s.menuIndex ≤ TOTAL_MENU_ICONS - 1 ∧
  MIN_BRIGHTNESS ≤ s.brightnessLevel ∧ s.brightnessLevel ≤ MAX_BRIGHTNESS

/-! ## Auxiliary lemmas -/

theorem sameCore_refl (s : State) : sameCore s s := by
  simp [sameCore]

theorem sameCore_trans {s t u : State} (h1 : sameCore s t) (h2 : sameCore t u) :
    sameCore s u := by
  unfold sameCore at h1 h2 ⊢
  simp [h1, h2]

theorem update_clock_hands_sameCore (s : State) : sameCore s (update_clock_hands s) := by
  unfold update_clock_hands sameCore emit
  dsimp only
  split_ifs <;> simp

theorem iterate_update_sameCore (n : Nat) (s : State) :
    sameCore s (Nat.iterate update_clock_hands n s) := by
  induction n generalizing s with
  | zero => exact sameCore_refl s
  | succ k ih =>
    rw [Function.iterate_succ_apply]
    exact sameCore_trans (update_clock_hands_sameCore s) (ih _)

theorem initializeWatchScreen_sameCore (s : State) : sameCore s (initializeWatchScreen s) := by
  unfold initializeWatchScreen animate_clock_hands_on_load set_hand_positions sameCore emit
  dsimp only
  split_ifs <;> simp

theorem switchScreen_fields (x : Screen) (s : State) :
    (switchScreen x s).currentScreen = x ∧
    (switchScreen x s).menuIndex = s.menuIndex ∧
    (switchScreen x s).brightnessLevel = s.brightnessLevel ∧
    (switchScreen x s).KNOB_Trigger_Flag = s.KNOB_Trigger_Flag ∧
    (switchScreen x s).KNOB_State_Flag = s.KNOB_State_Flag ∧
    (switchScreen x s).lastKnobKeyPressTime = s.lastKnobKeyPressTime := by
  cases x
  · have h := initializeWatchScreen_sameCore
      (emit (Effect.scr_load Screen.WATCH) { s with currentScreen := Screen.WATCH })
    simpa [switchScreen, showWatchScreen, sameCore, emit] using h
  · simp [switchScreen, showMenuScreen, emit]
  · simp [switchScreen, showBrightnessScreen, emit]
  · simp [switchScreen, showWeatherScreen, emit]

theorem handleKeyPress_fields (s : State) :
    (handleKeyPress s).currentScreen = nextScreen s.currentScreen s.menuIndex ∧
    (handleKeyPress s).menuIndex = s.menuIndex ∧
    (handleKeyPress s).brightnessLevel = s.brightnessLevel ∧
    (handleKeyPress s).KNOB_Trigger_Flag = s.KNOB_Trigger_Flag ∧
    (handleKeyPress s).KNOB_State_Flag = s.KNOB_State_Flag ∧
    (handleKeyPress s).lastKnobKeyPressTime = s.lastKnobKeyPressTime := by
  have hM := switchScreen_fields Screen.MENU (playBuzzer s)
  have hB := switchScreen_fields Screen.BRIGHTNESS (playBuzzer s)
  have hW := switchScreen_fields Screen.WATCH (playBuzzer s)
  have hE := switchScreen_fields Screen.WEATHER (playBuzzer s)
  have hp : (playBuzzer s).currentScreen = s.currentScreen := rfl
  have hm : (playBuzzer s).menuIndex = s.menuIndex := rfl
  have hb : (playBuzzer s).brightnessLevel = s.brightnessLevel := rfl
  have hf : (playBuzzer s).KNOB_Trigger_Flag = s.KNOB_Trigger_Flag := rfl
  have hd : (playBuzzer s).KNOB_State_Flag = s.KNOB_State_Flag := rfl
  have hl : (playBuzzer s).lastKnobKeyPressTime = s.lastKnobKeyPressTime := rfl
  rw [hm, hb, hf, hd, hl] at hM hB hW hE
  cases hs : s.currentScreen <;>
    simp only [handleKeyPress, hp, hs, nextScreen, handle_knob_keypress_in_menu, hm]
  · exact hM
  · simp only [ne_eq, not_true_eq_false, if_false]
    by_cases h0 : s.menuIndex = 0
    · simpa only [h0, if_true] using h0 ▸ hB
    by_cases h1 : s.menuIndex = 1
    · simpa only [h0, h1, if_true, if_false] using hW
    by_cases h4 : s.menuIndex = 4
    · simpa only [h0, h1, h4, if_true, if_false] using hE
    · simp only [h0, h1, h4, if_false]
      exact ⟨hp.trans hs, hm, hb, hf, hd, hl⟩
  · exact hM
  · exact hM

theorem sub32_elapsed (t0 d : Nat) :
    sub32 ((t0 + d) % 2 ^ 32) (t0 % 2 ^ 32) = d % 2 ^ 32 := by
  unfold sub32
  norm_num
  omega

theorem sub32_of_le (a b : Nat) (hba : b ≤ a) (ha : a < 2 ^ 32) : sub32 a b = a - b := by
  unfold sub32
  norm_num at ha ⊢
  omega

theorem isKnobKeyPressed_true_iff (key : Level) (now : Nat) (s : State) :
    (isKnobKeyPressed key now s).1 = true ↔
      key = Level.LOW ∧ sub32 now s.lastKnobKeyPressTime ≥ debounceDelay := by
  unfold isKnobKeyPressed
  dsimp only
  split_ifs with h
  · simpa using h
  · simpa using h

theorem isKnobKeyPressed_state (key : Level) (now : Nat) (s : State) :
    (isKnobKeyPressed key now s).2 =
      if (isKnobKeyPressed key now s).1 = true then { s with lastKnobKeyPressTime := now }
      else s := by
  unfold isKnobKeyPressed
  dsimp only
  split_ifs <;> simp_all

theorem handle_knob_for_brightness_set (s : State) (hf : s.KNOB_Trigger_Flag = true) :
    handle_knob_for_brightness s =
      { s with
        KNOB_Trigger_Flag := false
        brightnessLevel := steppedBrightness s.KNOB_State_Flag s.brightnessLevel
        trace := s.trace ++
          [Effect.arc_set_value
              (map (steppedBrightness s.KNOB_State_Flag s.brightnessLevel)
                MIN_BRIGHTNESS MAX_BRIGHTNESS 0 100),
            Effect.Display_Brightness (steppedBrightness s.KNOB_State_Flag s.brightnessLevel),
            Effect.label_set_text (snprintf_d 4
              (map (steppedBrightness s.KNOB_State_Flag s.brightnessLevel)
                MIN_BRIGHTNESS MAX_BRIGHTNESS 0 100))] } := by
  unfold handle_knob_for_brightness steppedBrightness emit
  simp only [hf, if_true]
  split_ifs <;> simp

theorem handle_knob_for_brightness_clear (s : State) (hf : s.KNOB_Trigger_Flag = false) :
    handle_knob_for_brightness s = s := by
  unfold handle_knob_for_brightness
  simp [hf]

theorem steppedBrightness_increment (b : Int) (hhi : b ≤ 255) :
    steppedBrightness KNOB_INCREMENT b = min (b + 5) 255 := by
  unfold steppedBrightness
  simp only [MAX_BRIGHTNESS, MIN_BRIGHTNESS, KNOB_INCREMENT, KNOB_DECREMENT, min_def, max_def,
    true_and]
  split_ifs <;> omega

theorem steppedBrightness_decrement (b : Int) (hlo : 0 ≤ b) :
    steppedBrightness KNOB_DECREMENT b = max (b - 5) 0 := by
  unfold steppedBrightness
  simp only [MAX_BRIGHTNESS, MIN_BRIGHTNESS, KNOB_INCREMENT, KNOB_DECREMENT, min_def, max_def,
    true_and]
  split_ifs <;> omega

theorem steppedBrightness_other (d : Nat) (b : Int) (h1 : d ≠ KNOB_INCREMENT)
    (h2 : d ≠ KNOB_DECREMENT) : steppedBrightness d b = b := by
  unfold steppedBrightness
  simp [h1, h2]

theorem steppedBrightness_range (d : Nat) (b : Int) (hlo : 0 ≤ b) (hhi : b ≤ 255) :
    0 ≤ steppedBrightness d b ∧ steppedBrightness d b ≤ 255 := by
  unfold steppedBrightness
  simp only [MAX_BRIGHTNESS, MIN_BRIGHTNESS]
  split_ifs <;> omega

theorem brightnessDecrements_level (n : Nat) (s : State) (hlo : 0 ≤ s.brightnessLevel) :
    (brightnessDecrements n s).brightnessLevel = max (s.brightnessLevel - 5 * n) 0 := by
  induction n generalizing s with
  | zero => simp [brightnessDecrements, hlo]
  | succ k ih =>
    have hstep : brightnessDecrements (k + 1) s =
        brightnessDecrements k (handle_knob_for_brightness (knobStep KNOB_DECREMENT s)) := by
      simp [brightnessDecrements, Function.iterate_succ_apply]
    have hlev : (handle_knob_for_brightness (knobStep KNOB_DECREMENT s)).brightnessLevel =
        max (s.brightnessLevel - 5) 0 := by
      rw [handle_knob_for_brightness_set _ (by simp [knobStep, KNOB_Logical_Scan_Loop])]
      simpa [knobStep, KNOB_Logical_Scan_Loop] using steppedBrightness_decrement _ hlo
    rw [hstep, ih _ (by rw [hlev]; omega), hlev]
    push_cast
    omega

theorem map_percent (b : Int) (hb : 0 ≤ b) :
    map b MIN_BRIGHTNESS MAX_BRIGHTNESS 0 100 = b * 100 / 255 := by
  unfold map
  simp only [MIN_BRIGHTNESS, MAX_BRIGHTNESS]
  norm_num
  exact Int.tdiv_eq_ediv (by omega) (by omega)

theorem toDigits_length_small : ∀ n : Fin 101, (Nat.toDigits 10 n.val).length ≤ 3 := by
  decide

theorem fmt_d_length (p : Int) (hlo : 0 ≤ p) (hhi : p ≤ 100) : (fmt_d p).length ≤ 3 := by
  unfold fmt_d
  rw [if_neg (by omega)]
  have hn : p.toNat < 101 := by omega
  exact toDigits_length_small ⟨p.toNat, hn⟩

theorem emitted_append (s t : State) (es : List Effect) (h : t.trace = s.trace ++ es) :
    emitted s t = es := by
  unfold emitted
  rw [h]
  exact List.drop_left _ _

theorem updateIconFocus_inRange (j : Int) (s : State) (hj0 : 0 ≤ j) (hj5 : j ≤ 5)
    (hlo : 0 ≤ s.menuIndex) (hhi : s.menuIndex ≤ 5) :
    updateIconFocus j s =
      some { s with menuIndex := j, trace := s.trace ++ focusEffects s.menuIndex j } := by
  unfold updateIconFocus
  simp only [TOTAL_MENU_ICONS]
  rw [if_neg (by omega), if_pos (by omega)]
  simp [emit, focusEffects]

theorem steppedMenuIndex_range (d : Nat) (i : Int) (hlo : 0 ≤ i) (hhi : i ≤ 5) :
    0 ≤ steppedMenuIndex d i ∧ steppedMenuIndex d i ≤ 5 := by
  unfold steppedMenuIndex
  simp only [TOTAL_MENU_ICONS]
  split_ifs <;> omega

theorem handle_knob_for_menu_set (s : State) (hf : s.KNOB_Trigger_Flag = true)
    (hlo : 0 ≤ s.menuIndex) (hhi : s.menuIndex ≤ 5) :
    handle_knob_for_menu s =
      some { s with
        KNOB_Trigger_Flag := false
        menuIndex := steppedMenuIndex s.KNOB_State_Flag s.menuIndex
        trace := s.trace ++
          (if steppedMenuIndex s.KNOB_State_Flag s.menuIndex = s.menuIndex then []
            else focusEffects s.menuIndex
              (steppedMenuIndex s.KNOB_State_Flag s.menuIndex)) } := by
  unfold handle_knob_for_menu steppedMenuIndex
  simp only [hf, if_true, TOTAL_MENU_ICONS]
  by_cases h1 : s.KNOB_State_Flag = KNOB_INCREMENT ∧ s.menuIndex < 6 - 1
  · rw [if_pos h1, if_pos h1]
    have h := updateIconFocus_inRange (s.menuIndex + 1) { s with KNOB_Trigger_Flag := false }
      (by omega) (by omega) hlo hhi
    rw [h]
    simp
  · rw [if_neg h1, if_neg h1]
    by_cases h2 : s.KNOB_State_Flag = KNOB_DECREMENT ∧ s.menuIndex > 0
    · rw [if_pos h2, if_pos h2]
      have h := updateIconFocus_inRange (s.menuIndex - 1) { s with KNOB_Trigger_Flag := false }
        (by omega) (by omega) hlo hhi
      rw [h]
      simp
    · rw [if_neg h2, if_neg h2]
      simp

theorem handle_knob_for_menu_clear (s : State) (hf : s.KNOB_Trigger_Flag = false) :
    handle_knob_for_menu s = some s := by
  unfold handle_knob_for_menu
  simp [hf]

theorem scanned_fields (i : TickInput) (s : State) :
    (scanned i s).currentScreen = s.currentScreen ∧
    (scanned i s).menuIndex = s.menuIndex ∧
    (scanned i s).brightnessLevel = s.brightnessLevel ∧
    (scanned i s).KNOB_Trigger_Flag = (i.scan (s.KNOB_Trigger_Flag, s.KNOB_State_Flag)).1 ∧
    (scanned i s).KNOB_State_Flag = (i.scan (s.KNOB_Trigger_Flag, s.KNOB_State_Flag)).2 ∧
    (scanned i s).lastKnobKeyPressTime = s.lastKnobKeyPressTime := by
  obtain ⟨h1, h2, h3, h4, h5, h6⟩ := iterate_update_sameCore i.fired s
  simp only [scanned, h1, h2, h3, h4, h5, h6]
  exact ⟨trivial, trivial, trivial, trivial, trivial, trivial⟩

theorem loop_eq (i : TickInput) (s : State) :
    loop i s =
      (if (scanned i s).currentScreen = Screen.MENU then handle_knob_for_menu (scanned i s)
        else some (scanned i s)).bind
        fun s2 =>
          if (isKnobKeyPressed i.key i.now
              (if s2.currentScreen = Screen.BRIGHTNESS then handle_knob_for_brightness s2
                else s2)).1 = true then
            some (handleKeyPress (isKnobKeyPressed i.key i.now
              (if s2.currentScreen = Screen.BRIGHTNESS then handle_knob_for_brightness s2
                else s2)).2)
          else
            some (isKnobKeyPressed i.key i.now
              (if s2.currentScreen = Screen.BRIGHTNESS then handle_knob_for_brightness s2
                else s2)).2 :=
  rfl

theorem loop_other_screen (i : TickInput) (s : State)
    (h1 : s.currentScreen ≠ Screen.MENU) (h2 : s.currentScreen ≠ Screen.BRIGHTNESS) :
    loop i s =
      if (isKnobKeyPressed i.key i.now (scanned i s)).1 = true then
        some (handleKeyPress (isKnobKeyPressed i.key i.now (scanned i s)).2)
      else some (isKnobKeyPressed i.key i.now (scanned i s)).2 := by
  have hc := (scanned_fields i s).1
  have e : (if (scanned i s).currentScreen = Screen.BRIGHTNESS then
      handle_knob_for_brightness (scanned i s) else scanned i s) = scanned i s := by
    rw [hc]
    exact if_neg h2
  rw [loop_eq, if_neg (by rw [hc]; exact h1)]
  simp only [Option.some_bind, e]

theorem loop_menu_screen (i : TickInput) (s t : State)
    (h1 : s.currentScreen = Screen.MENU) (ht : handle_knob_for_menu (scanned i s) = some t)
    (htc : t.currentScreen = Screen.MENU) :
    loop i s =
      if (isKnobKeyPressed i.key i.now t).1 = true then
        some (handleKeyPress (isKnobKeyPressed i.key i.now t).2)
      else some (isKnobKeyPressed i.key i.now t).2 := by
  have hc := (scanned_fields i s).1
  have e : (if t.currentScreen = Screen.BRIGHTNESS then
      handle_knob_for_brightness t else t) = t := by
    rw [htc]
    exact if_neg (by decide)
  rw [loop_eq, if_pos (by rw [hc]; exact h1), ht]
  simp only [Option.some_bind, e]

theorem loop_brightness_screen (i : TickInput) (s : State)
    (h1 : s.currentScreen = Screen.BRIGHTNESS) :
    loop i s =
      if (isKnobKeyPressed i.key i.now (handle_knob_for_brightness (scanned i s))).1 = true then
        some (handleKeyPress
          (isKnobKeyPressed i.key i.now (handle_knob_for_brightness (scanned i s))).2)
      else some (isKnobKeyPressed i.key i.now (handle_knob_for_brightness (scanned i s))).2 := by
  have hc := (scanned_fields i s).1
  have e : (if (scanned i s).currentScreen = Screen.BRIGHTNESS then
      handle_knob_for_brightness (scanned i s) else scanned i s) =
      handle_knob_for_brightness (scanned i s) := by
    rw [hc]
    exact if_pos h1
  rw [loop_eq, if_neg (by rw [hc, h1]; decide)]
  simp only [Option.some_bind, e]

theorem isKnobKeyPressed_fields (key : Level) (now : Nat) (s : State) :
    (isKnobKeyPressed key now s).2.currentScreen = s.currentScreen ∧
    (isKnobKeyPressed key now s).2.menuIndex = s.menuIndex ∧
    (isKnobKeyPressed key now s).2.brightnessLevel = s.brightnessLevel ∧
    (isKnobKeyPressed key now s).2.KNOB_Trigger_Flag = s.KNOB_Trigger_Flag ∧
    (isKnobKeyPressed key now s).2.KNOB_State_Flag = s.KNOB_State_Flag := by
  rw [isKnobKeyPressed_state]
  split_ifs <;> simp

theorem Inv_of_fields {s t : State} (h : Inv s) (h1 : t.menuIndex = s.menuIndex)
    (h2 : t.brightnessLevel = s.brightnessLevel) : Inv t := by
  unfold Inv at h ⊢
  rw [h1, h2]
  exact h

theorem key_step_Inv (key : Level) (now : Nat) (s : State) (h : Inv s) :
    ∃ t : State,
      (if (isKnobKeyPressed key now s).1 = true then
        some (handleKeyPress (isKnobKeyPressed key now s).2)
      else some (isKnobKeyPressed key now s).2) = some t ∧ Inv t := by
  obtain ⟨-, k2, k3, -⟩ := isKnobKeyPressed_fields key now s
  have hk : Inv (isKnobKeyPressed key now s).2 := Inv_of_fields h k2 k3
  split_ifs
  · obtain ⟨-, p2, p3, -⟩ := handleKeyPress_fields (isKnobKeyPressed key now s).2
    exact ⟨_, rfl, Inv_of_fields hk p2 p3⟩
  · exact ⟨_, rfl, hk⟩

theorem handle_knob_for_menu_Inv (s : State) (h : Inv s) :
    ∃ t : State, handle_knob_for_menu s = some t ∧ Inv t ∧
      t.currentScreen = s.currentScreen := by
  have hlo : 0 ≤ s.menuIndex := h.1
  have hhi : s.menuIndex ≤ 5 := by
    have := h.2.1
    simpa [TOTAL_MENU_ICONS] using this
  cases hf : s.KNOB_Trigger_Flag
  · exact ⟨s, handle_knob_for_menu_clear s hf, h, rfl⟩
  · refine ⟨_, handle_knob_for_menu_set s hf hlo hhi, ?_, rfl⟩
    obtain ⟨r1, r2⟩ := steppedMenuIndex_range s.KNOB_State_Flag s.menuIndex hlo hhi
    refine ⟨r1, ?_, h.2.2.1, h.2.2.2⟩
    simpa [TOTAL_MENU_ICONS] using r2

theorem handle_knob_for_brightness_Inv (s : State) (h : Inv s) :
    Inv (handle_knob_for_brightness s) := by
  have hlo : 0 ≤ s.brightnessLevel := by
    have := h.2.2.1
    simpa [MIN_BRIGHTNESS] using this
  have hhi : s.brightnessLevel ≤ 255 := by
    have := h.2.2.2
    simpa [MAX_BRIGHTNESS] using this
  cases hf : s.KNOB_Trigger_Flag
  · rw [handle_knob_for_brightness_clear s hf]
    exact h
  · rw [handle_knob_for_brightness_set s hf]
    obtain ⟨r1, r2⟩ := steppedBrightness_range s.KNOB_State_Flag s.brightnessLevel hlo hhi
    refine ⟨h.1, h.2.1, ?_, ?_⟩
    · simpa [MIN_BRIGHTNESS] using r1
    · simpa [MAX_BRIGHTNESS] using r2

theorem loop_Inv (i : TickInput) (s : State) (h : Inv s) :
    ∃ t : State, loop i s = some t ∧ Inv t := by
  obtain ⟨c1, c2, c3, -⟩ := scanned_fields i s
  have hsc : Inv (scanned i s) := Inv_of_fields h c2 c3
  by_cases hM : s.currentScreen = Screen.MENU
  · obtain ⟨t, ht, hti, htc⟩ := handle_knob_for_menu_Inv (scanned i s) hsc
    rw [loop_menu_screen i s t hM ht (by rw [htc, c1, hM])]
    exact key_step_Inv _ _ _ hti
  · by_cases hB : s.currentScreen = Screen.BRIGHTNESS
    · rw [loop_brightness_screen i s hB]
      exact key_step_Inv _ _ _ (handle_knob_for_brightness_Inv _ hsc)
    · rw [loop_other_screen i s hM hB]
      exact key_step_Inv _ _ _ hsc

theorem runLoop_Inv (is : List TickInput) (s : State) (h : Inv s) :
    ∃ t : State, runLoop is s = some t ∧ Inv t := by
  induction is generalizing s with
  | nil => exact ⟨s, rfl, h⟩
  | cons i rest ih =>
    obtain ⟨t, ht, hti⟩ := loop_Inv i s h
    obtain ⟨u, hu, hui⟩ := ih t hti
    exact ⟨u, by simp [runLoop, ht, hu], hui⟩

theorem isKnobKeyPressed_false_of_not (key : Level) (now : Nat) (s : State)
    (h : ¬(key = Level.LOW ∧ sub32 now s.lastKnobKeyPressTime ≥ 200)) :
    (isKnobKeyPressed key now s).1 = false ∧ (isKnobKeyPressed key now s).2 = s := by
  have hiff := isKnobKeyPressed_true_iff key now s
  simp only [debounceDelay] at hiff
  have h1 : (isKnobKeyPressed key now s).1 = false := by
    cases hr : (isKnobKeyPressed key now s).1
    · rfl
    · exact absurd (hiff.mp hr) h
  refine ⟨h1, ?_⟩
  rw [isKnobKeyPressed_state, if_neg (by simp [h1])]

theorem isKnobKeyPressed_true_of (key : Level) (now : Nat) (s : State)
    (h : key = Level.LOW ∧ sub32 now s.lastKnobKeyPressTime ≥ 200) :
    (isKnobKeyPressed key now s).1 = true ∧
      (isKnobKeyPressed key now s).2 = { s with lastKnobKeyPressTime := now } := by
  have hiff := isKnobKeyPressed_true_iff key now s
  simp only [debounceDelay] at hiff
  have h1 : (isKnobKeyPressed key now s).1 = true := hiff.mpr h
  refine ⟨h1, ?_⟩
  rw [isKnobKeyPressed_state, if_pos h1]

theorem loop_idle_off_menu (i : TickInput) (s : State)
    (hs : s.currentScreen = Screen.WATCH ∨ s.currentScreen = Screen.WEATHER)
    (hk : ¬(i.key = Level.LOW ∧ sub32 i.now s.lastKnobKeyPressTime ≥ 200)) :
    loop i s = some (scanned i s) := by
  have hM : s.currentScreen ≠ Screen.MENU := by
    rcases hs with h | h <;> rw [h] <;> decide
  have hB : s.currentScreen ≠ Screen.BRIGHTNESS := by
    rcases hs with h | h <;> rw [h] <;> decide
  obtain ⟨-, -, -, -, -, c6⟩ := scanned_fields i s
  obtain ⟨k1, k2⟩ := isKnobKeyPressed_false_of_not i.key i.now (scanned i s) (by rw [c6]; exact hk)
  rw [loop_other_screen i s hM hB, if_neg (by simp [k1]), k2]

theorem loop_press_off_menu (i : TickInput) (s : State)
    (hs : s.currentScreen = Screen.WATCH ∨ s.currentScreen = Screen.WEATHER)
    (hk : i.key = Level.LOW ∧ sub32 i.now s.lastKnobKeyPressTime ≥ 200) :
    loop i s = some (handleKeyPress { scanned i s with lastKnobKeyPressTime := i.now }) := by
  have hM : s.currentScreen ≠ Screen.MENU := by
    rcases hs with h | h <;> rw [h] <;> decide
  have hB : s.currentScreen ≠ Screen.BRIGHTNESS := by
    rcases hs with h | h <;> rw [h] <;> decide
  obtain ⟨-, -, -, -, -, c6⟩ := scanned_fields i s
  obtain ⟨k1, k2⟩ := isKnobKeyPressed_true_of i.key i.now (scanned i s) (by rw [c6]; exact hk)
  rw [loop_other_screen i s hM hB, if_pos k1, k2]

theorem loop_press_off_menu_fields (i : TickInput) (s : State)
    (hs : s.currentScreen = Screen.WATCH ∨ s.currentScreen = Screen.WEATHER)
    (hk : i.key = Level.LOW ∧ sub32 i.now s.lastKnobKeyPressTime ≥ 200) :
    ∃ t : State, loop i s = some t ∧
      t.currentScreen = Screen.MENU ∧
      t.menuIndex = s.menuIndex ∧
      t.brightnessLevel = s.brightnessLevel ∧
      t.KNOB_Trigger_Flag = (i.scan (s.KNOB_Trigger_Flag, s.KNOB_State_Flag)).1 ∧
      t.KNOB_State_Flag = (i.scan (s.KNOB_Trigger_Flag, s.KNOB_State_Flag)).2 ∧
      t.lastKnobKeyPressTime = i.now := by
  obtain ⟨c1, c2, c3, c4, c5, -⟩ := scanned_fields i s
  obtain ⟨p1, p2, p3, p4, p5, p6⟩ :=
    handleKeyPress_fields { scanned i s with lastKnobKeyPressTime := i.now }
  have hnext : nextScreen (scanned i s).currentScreen (scanned i s).menuIndex = Screen.MENU := by
    rw [c1]
    rcases hs with h | h <;> rw [h] <;> rfl
  exact ⟨_, loop_press_off_menu i s hs hk, p1.trans hnext, p2.trans c2, p3.trans c3,
    p4.trans c4, p5.trans c5, p6⟩

theorem loop_idle_menu_fields (i : TickInput) (s : State)
    (hs : s.currentScreen = Screen.MENU) (hlo : 0 ≤ s.menuIndex) (hhi : s.menuIndex ≤ 5)
    (hf : (i.scan (s.KNOB_Trigger_Flag, s.KNOB_State_Flag)).1 = true)
    (hk : ¬(i.key = Level.LOW ∧ sub32 i.now s.lastKnobKeyPressTime ≥ 200)) :
    ∃ t : State, loop i s = some t ∧
      t.currentScreen = Screen.MENU ∧
      t.menuIndex =
        steppedMenuIndex (i.scan (s.KNOB_Trigger_Flag, s.KNOB_State_Flag)).2 s.menuIndex ∧
      t.brightnessLevel = s.brightnessLevel ∧
      t.KNOB_Trigger_Flag = false := by
  obtain ⟨c1, c2, c3, c4, c5, c6⟩ := scanned_fields i s
  have hset := handle_knob_for_menu_set (scanned i s) (c4.trans hf)
    (by rw [c2]; exact hlo) (by rw [c2]; exact hhi)
  have hloop := loop_menu_screen i s _ hs hset (c1.trans hs)
  obtain ⟨k1, k2⟩ := isKnobKeyPressed_false_of_not i.key i.now
    { scanned i s with
      KNOB_Trigger_Flag := false
      menuIndex := steppedMenuIndex (scanned i s).KNOB_State_Flag (scanned i s).menuIndex
      trace := (scanned i s).trace ++
        (if steppedMenuIndex (scanned i s).KNOB_State_Flag (scanned i s).menuIndex =
            (scanned i s).menuIndex then []
          else focusEffects (scanned i s).menuIndex
            (steppedMenuIndex (scanned i s).KNOB_State_Flag (scanned i s).menuIndex)) }
    (by
      show ¬(i.key = Level.LOW ∧ sub32 i.now (scanned i s).lastKnobKeyPressTime ≥ 200)
      rw [c6]
      exact hk)
  rw [if_neg (by simp [k1]), k2] at hloop
  refine ⟨_, hloop, c1.trans hs, ?_, c3, rfl⟩
  show steppedMenuIndex (scanned i s).KNOB_State_Flag (scanned i s).menuIndex = _
  rw [c5, c2]

theorem switchScreen_watch_first (s : State) (h : s.is_first_load = true) :
    (switchScreen Screen.WATCH s).trace = s.trace ++ watchFirstLoadEffects s ∧
    (switchScreen Screen.WATCH s).is_first_load = false := by
  simp [switchScreen, showWatchScreen, initializeWatchScreen, set_hand_positions,
    animate_clock_hands_on_load, emit, h, watchFirstLoadEffects, handEffects, hour_angle,
    minute_angle, second_angle]

theorem switchScreen_watch_later (s : State) (h : s.is_first_load = false) :
    (switchScreen Screen.WATCH s).trace = s.trace ++ watchReloadEffects s ∧
    (switchScreen Screen.WATCH s).is_first_load = false := by
  simp [switchScreen, showWatchScreen, initializeWatchScreen, set_hand_positions, emit, h,
    watchReloadEffects, handEffects, hour_angle, minute_angle, second_angle]

theorem switchScreen_other (x : Screen) (s : State) (hx : x ≠ Screen.WATCH) :
    (switchScreen x s).trace = s.trace ++ [Effect.scr_load x] ∧
    (switchScreen x s).is_first_load = s.is_first_load := by
  cases x
  · exact absurd rfl hx
  · simp [switchScreen, showMenuScreen, emit]
  · simp [switchScreen, showBrightnessScreen, emit]
  · simp [switchScreen, showWeatherScreen, emit]

theorem watchReloadEffects_no_setup (s : State) :
    ∀ e ∈ watchReloadEffects s, isSetupEffect e = false := by
  intro e he
  simp only [watchReloadEffects, handEffects, List.cons_append, List.nil_append,
    List.mem_cons, List.mem_singleton, List.not_mem_nil, or_false] at he
  rcases he with h | h | h | h | h | h | h <;> rw [h] <;> rfl

theorem switchScreen_later_no_setup (x : Screen) (s : State) (h : s.is_first_load = false) :
    (switchScreen x s).is_first_load = false ∧
    ∃ es : List Effect, (switchScreen x s).trace = s.trace ++ es ∧
      ∀ e ∈ es, isSetupEffect e = false := by
  by_cases hx : x = Screen.WATCH
  · subst hx
    obtain ⟨h1, h2⟩ := switchScreen_watch_later s h
    exact ⟨h2, _, h1, watchReloadEffects_no_setup s⟩
  · obtain ⟨h1, h2⟩ := switchScreen_other x s hx
    refine ⟨h2.trans h, _, h1, ?_⟩
    intro e he
    rw [List.mem_singleton.mp he]
    rfl

theorem switchScreens_later_no_setup (xs : List Screen) (s : State)
    (h : s.is_first_load = false) :
    (switchScreens xs s).is_first_load = false ∧
    ∃ es : List Effect, (switchScreens xs s).trace = s.trace ++ es ∧
      ∀ e ∈ es, isSetupEffect e = false := by
  induction xs generalizing s with
  | nil => exact ⟨h, [], by simp [switchScreens], by simp⟩
  | cons x rest ih =>
    obtain ⟨h1, es1, t1, n1⟩ := switchScreen_later_no_setup x s h
    obtain ⟨h2, es2, t2, n2⟩ := ih (switchScreen x s) h1
    refine ⟨h2, es1 ++ es2, ?_, ?_⟩
    · show (switchScreens rest (switchScreen x s)).trace = _
      rw [t2, t1, List.append_assoc]
    · intro e he
      rcases List.mem_append.mp he with h' | h'
      · exact n1 e h'
      · exact n2 e h'

theorem switchScreens_before_watch (xs : List Screen) (s : State)
    (hx : Screen.WATCH ∉ xs) :
    (switchScreens xs s).is_first_load = s.is_first_load ∧
    ∃ es : List Effect, (switchScreens xs s).trace = s.trace ++ es ∧
      ∀ e ∈ es, isSetupEffect e = false := by
  induction xs generalizing s with
  | nil => exact ⟨rfl, [], by simp [switchScreens], by simp⟩
  | cons x rest ih =>
    have hx1 : x ≠ Screen.WATCH := fun h => hx (h ▸ List.mem_cons_self _ _)
    have hx2 : Screen.WATCH ∉ rest := fun h => hx (List.mem_cons_of_mem _ h)
    obtain ⟨t1, f1⟩ := switchScreen_other x s hx1
    obtain ⟨f2, es2, t2, n2⟩ := ih (switchScreen x s) hx2
    refine ⟨f2.trans f1, Effect.scr_load x :: es2, ?_, ?_⟩
    · show (switchScreens rest (switchScreen x s)).trace = _
      rw [t2, t1, List.append_assoc]
      rfl
    · intro e he
      rcases List.mem_cons.mp he with h' | h'
      · rw [h']
        rfl
      · exact n2 e h'

theorem switchScreens_append (xs ys : List Screen) (s : State) :
    switchScreens (xs ++ ys) s = switchScreens ys (switchScreens xs s) := by
  induction xs generalizing s with
  | nil => rfl
  | cons x rest ih => exact ih (switchScreen x s)

theorem pollKey_in_window (cs : List (Level × Nat)) (s : State)
    (h : ∀ c ∈ cs, s.lastKnobKeyPressTime ≤ c.2 ∧ c.2 < s.lastKnobKeyPressTime + 200 ∧
      c.2 < 2 ^ 32) :
    pollKey cs s = (List.replicate cs.length false, s) := by
  induction cs with
  | nil => rfl
  | cons c rest ih =>
    obtain ⟨h1, h2, h3⟩ := h c (List.mem_cons_self _ _)
    have hsub := sub32_of_le c.2 s.lastKnobKeyPressTime h1 h3
    obtain ⟨k1, k2⟩ := isKnobKeyPressed_false_of_not c.1 c.2 s (by rw [hsub]; omega)
    have ih2 := ih (fun c' hc' => h c' (List.mem_cons_of_mem _ hc'))
    simp only [pollKey, k1, k2, ih2, List.length_cons, List.replicate_succ]

theorem pollKey_append (as bs : List (Level × Nat)) (s : State) :
    pollKey (as ++ bs) s =
      ((pollKey as s).1 ++ (pollKey bs (pollKey as s).2).1, (pollKey bs (pollKey as s).2).2) := by
  induction as generalizing s with
  | nil => rfl
  | cons a rest ih =>
    show pollKey (a :: (rest ++ bs)) s = _
    simp only [pollKey, ih, List.cons_append]

/-! ## Claims -/

/-- C1: handling one accepted button press (the body of the press branch of
`loop`) moves `currentScreen` as the transition table says, a total function of
the current screen and the menu index (MENU from WATCH, BRIGHTNESS and WEATHER;
from MENU: BRIGHTNESS at index 0, WATCH at 1, WEATHER at 4, MENU otherwise),
and leaves `menuIndex` and `brightnessLevel` unchanged, for every state. -/
theorem keypress_transition_total (s : State) :
    (handleKeyPress s).currentScreen = nextScreen s.currentScreen s.menuIndex ∧
    (handleKeyPress s).menuIndex = s.menuIndex ∧
    (handleKeyPress s).brightnessLevel = s.brightnessLevel ∧
    (∀ i : Int, nextScreen Screen.WATCH i = Screen.MENU ∧
      nextScreen Screen.BRIGHTNESS i = Screen.MENU ∧
      nextScreen Screen.WEATHER i = Screen.MENU) ∧
    nextScreen Screen.MENU 0 = Screen.BRIGHTNESS ∧
    nextScreen Screen.MENU 1 = Screen.WATCH ∧
    nextScreen Screen.MENU 4 = Screen.WEATHER ∧
    (∀ i : Int, (i = 0 ∨ i = 1 ∨ i = 4) ∨ nextScreen Screen.MENU i = Screen.MENU) := by
  obtain ⟨h1, h2, h3, -⟩ := handleKeyPress_fields s
  refine ⟨h1, h2, h3, fun i => ⟨rfl, rfl, rfl⟩, rfl, rfl, rfl, fun i => ?_⟩
  by_cases h0 : i = 0
  · exact Or.inl (Or.inl h0)
  by_cases h1 : i = 1
  · exact Or.inl (Or.inr (Or.inl h1))
  by_cases h4 : i = 4
  · exact Or.inl (Or.inr (Or.inr h4))
  · right
    simp [nextScreen, h0, h1, h4]

/-- C3: `isKnobKeyPressed` returns true exactly when the button reads LOW and
the unsigned 32-bit difference `now - lastKnobKeyPressTime` is at least 200; a
true result stores `now` in `lastKnobKeyPressTime`, a false result changes
nothing.  So a read whose clock is `d < 200` ms past the last accepted press
reports no press at any button level, and a read `d ≥ 200` ms past it (`d`
below the 32-bit clock period) reports a press when the button is LOW. -/
theorem debounce_accept_iff (key : Level) (now : Nat) (s : State) :
    ((isKnobKeyPressed key now s).1 = true ↔
      key = Level.LOW ∧ sub32 now s.lastKnobKeyPressTime ≥ 200) ∧
    ((isKnobKeyPressed key now s).1 = true →
      (isKnobKeyPressed key now s).2 = { s with lastKnobKeyPressTime := now }) ∧
    ((isKnobKeyPressed key now s).1 = false → (isKnobKeyPressed key now s).2 = s) ∧
    (s.lastKnobKeyPressTime ≤ now → now < 2 ^ 32 →
      sub32 now s.lastKnobKeyPressTime = now - s.lastKnobKeyPressTime) ∧
    (∀ t0 d : Nat, s.lastKnobKeyPressTime = t0 % 2 ^ 32 → now = (t0 + d) % 2 ^ 32 →
      d < 200 → (isKnobKeyPressed key now s).1 = false) ∧
    (∀ t0 d : Nat, s.lastKnobKeyPressTime = t0 % 2 ^ 32 → now = (t0 + d) % 2 ^ 32 →
      200 ≤ d → d < 2 ^ 32 → key = Level.LOW → (isKnobKeyPressed key now s).1 = true) := by
  have hiff := isKnobKeyPressed_true_iff key now s
  have hst := isKnobKeyPressed_state key now s
  simp only [debounceDelay] at hiff
  refine ⟨hiff, ?_, ?_, ?_, ?_, ?_⟩
  · intro h
    rw [hst, if_pos h]
  · intro h
    rw [hst, if_neg (by simp [h])]
  · intro h1 h2
    exact sub32_of_le _ _ h1 h2
  · intro t0 d h1 h2 hd
    have hsub : sub32 now s.lastKnobKeyPressTime = d % 2 ^ 32 := by
      rw [h1, h2]
      exact sub32_elapsed t0 d
    have hlt : sub32 now s.lastKnobKeyPressTime < 200 := by
      rw [hsub]
      exact lt_of_le_of_lt (Nat.mod_le _ _) hd
    cases hr : (isKnobKeyPressed key now s).1
    · rfl
    · have := (hiff.mp hr).2
      omega
  · intro t0 d h1 h2 hd hd2 hk
    have hsub : sub32 now s.lastKnobKeyPressTime = d := by
      rw [h1, h2, sub32_elapsed, Nat.mod_eq_of_lt hd2]
    exact hiff.mpr ⟨hk, by omega⟩

/-- Witness for C3: 1000 ms after boot, with the button LOW, the first read is
accepted; after a press accepted at 1000 ms a LOW read at 1199 ms is rejected
and a LOW read at 1200 ms is accepted. -/
theorem debounce_accept_iff_witness :
    (isKnobKeyPressed Level.LOW 1000 (initialState false 0)).1 = true ∧
    (isKnobKeyPressed Level.LOW 1199
      { initialState false 0 with lastKnobKeyPressTime := 1000 }).1 = false ∧
    (isKnobKeyPressed Level.LOW 1200
      { initialState false 0 with lastKnobKeyPressTime := 1000 }).1 = true :=
  ⟨(debounce_accept_iff Level.LOW 1000 (initialState false 0)).1.mpr ⟨rfl, by decide⟩,
    (debounce_accept_iff Level.LOW 1199
      { initialState false 0 with lastKnobKeyPressTime := 1000 }).2.2.2.2.1
      1000 199 rfl rfl (by decide),
    (debounce_accept_iff Level.LOW 1200
      { initialState false 0 with lastKnobKeyPressTime := 1000 }).2.2.2.2.2
      1000 200 rfl rfl (by decide) (by decide) rfl⟩

/-- C4: for a brightness level `b` in [0, 255], one call of
`handle_knob_for_brightness` with the trigger flag set gives `min (b + 5) 255`
on INCREMENT, `max (b - 5) 0` on DECREMENT and `b` on any other direction,
clears the flag in all cases and keeps `currentScreen` and `menuIndex`; with
the flag false the state is unchanged.  `n` consecutive DECREMENT events give
`max (b - 5 n) 0`: from 255, ten give 205 and 51 or more give 0. -/
theorem brightness_step_clamped (s : State) (hlo : 0 ≤ s.brightnessLevel)
    (hhi : s.brightnessLevel ≤ 255) :
    (s.KNOB_Trigger_Flag = true → s.KNOB_State_Flag = KNOB_INCREMENT →
      (handle_knob_for_brightness s).brightnessLevel = min (s.brightnessLevel + 5) 255) ∧
    (s.KNOB_Trigger_Flag = true → s.KNOB_State_Flag = KNOB_DECREMENT →
      (handle_knob_for_brightness s).brightnessLevel = max (s.brightnessLevel - 5) 0) ∧
    (s.KNOB_Trigger_Flag = true → s.KNOB_State_Flag ≠ KNOB_INCREMENT →
      s.KNOB_State_Flag ≠ KNOB_DECREMENT →
      (handle_knob_for_brightness s).brightnessLevel = s.brightnessLevel) ∧
    (s.KNOB_Trigger_Flag = true → (handle_knob_for_brightness s).KNOB_Trigger_Flag = false) ∧
    (handle_knob_for_brightness s).currentScreen = s.currentScreen ∧
    (handle_knob_for_brightness s).menuIndex = s.menuIndex ∧
    (s.KNOB_Trigger_Flag = false → handle_knob_for_brightness s = s) ∧
    (∀ n : Nat, (brightnessDecrements n s).brightnessLevel = max (s.brightnessLevel - 5 * n) 0) ∧
    (s.brightnessLevel = 255 → (brightnessDecrements 10 s).brightnessLevel = 205) ∧
    (∀ n : Nat, 51 ≤ n → (brightnessDecrements n s).brightnessLevel = 0) := by
  refine ⟨?_, ?_, ?_, ?_, ?_, ?_, ?_, ?_, ?_, ?_⟩
  · intro hf hd
    rw [handle_knob_for_brightness_set s hf, hd]
    exact steppedBrightness_increment _ hhi
  · intro hf hd
    rw [handle_knob_for_brightness_set s hf, hd]
    exact steppedBrightness_decrement _ hlo
  · intro hf h1 h2
    rw [handle_knob_for_brightness_set s hf]
    exact steppedBrightness_other _ _ h1 h2
  · intro hf
    rw [handle_knob_for_brightness_set s hf]
  · cases hf : s.KNOB_Trigger_Flag
    · rw [handle_knob_for_brightness_clear s hf]
    · rw [handle_knob_for_brightness_set s hf]
  · cases hf : s.KNOB_Trigger_Flag
    · rw [handle_knob_for_brightness_clear s hf]
    · rw [handle_knob_for_brightness_set s hf]
  · exact handle_knob_for_brightness_clear s
  · intro n
    exact brightnessDecrements_level n s hlo
  · intro h
    rw [brightnessDecrements_level 10 s hlo, h]
    rfl
  · intro n hn
    rw [brightnessDecrements_level n s hlo]
    omega

/-- Witness for C4: at full brightness, one DECREMENT event gives 250. -/
theorem brightness_step_clamped_witness :
    (handle_knob_for_brightness
      (knobStep KNOB_DECREMENT (initialState false 0))).brightnessLevel = max (255 - 5) 0 :=
  (brightness_step_clamped (knobStep KNOB_DECREMENT (initialState false 0))
    (by decide) (by decide)).2.1 rfl rfl

/-- C8: after `handle_knob_for_brightness` consumed an event at a level in
[0, 255], the new level is in [0, 255] and is the value given to the backlight;
the value given to the arc and the label is `level * 100 / 255`, which lies in
[0, 100], so its decimal text has at most 3 characters and is stored untruncated
in the 4-byte label buffer.  The map sends 0 to 0, 255 to 100 and is
non-decreasing on [0, 255]. -/
theorem brightness_percent_bounds (s : State) (hlo : 0 ≤ s.brightnessLevel)
    (hhi : s.brightnessLevel ≤ 255) (hf : s.KNOB_Trigger_Flag = true) :
    emitted s (handle_knob_for_brightness s) =
      [Effect.arc_set_value ((handle_knob_for_brightness s).brightnessLevel * 100 / 255),
        Effect.Display_Brightness (handle_knob_for_brightness s).brightnessLevel,
        Effect.label_set_text
          (fmt_d ((handle_knob_for_brightness s).brightnessLevel * 100 / 255))] ∧
    map (handle_knob_for_brightness s).brightnessLevel MIN_BRIGHTNESS MAX_BRIGHTNESS 0 100 =
      (handle_knob_for_brightness s).brightnessLevel * 100 / 255 ∧
    0 ≤ (handle_knob_for_brightness s).brightnessLevel ∧
    (handle_knob_for_brightness s).brightnessLevel ≤ 255 ∧
    0 ≤ (handle_knob_for_brightness s).brightnessLevel * 100 / 255 ∧
    (handle_knob_for_brightness s).brightnessLevel * 100 / 255 ≤ 100 ∧
    (fmt_d ((handle_knob_for_brightness s).brightnessLevel * 100 / 255)).length ≤ 3 ∧
    snprintf_d 4 ((handle_knob_for_brightness s).brightnessLevel * 100 / 255) =
      fmt_d ((handle_knob_for_brightness s).brightnessLevel * 100 / 255) ∧
    map 0 MIN_BRIGHTNESS MAX_BRIGHTNESS 0 100 = 0 ∧
    map 255 MIN_BRIGHTNESS MAX_BRIGHTNESS 0 100 = 100 ∧
    (∀ a b : Int, 0 ≤ a → a ≤ b → b ≤ 255 →
      map a MIN_BRIGHTNESS MAX_BRIGHTNESS 0 100 ≤ map b MIN_BRIGHTNESS MAX_BRIGHTNESS 0 100) := by
  have hset := handle_knob_for_brightness_set s hf
  obtain ⟨h0, h255⟩ := steppedBrightness_range s.KNOB_State_Flag s.brightnessLevel hlo hhi
  have hlev : (handle_knob_for_brightness s).brightnessLevel =
      steppedBrightness s.KNOB_State_Flag s.brightnessLevel := by rw [hset]
  have hmap := map_percent _ h0
  have hp0 : 0 ≤ steppedBrightness s.KNOB_State_Flag s.brightnessLevel * 100 / 255 := by omega
  have hp100 : steppedBrightness s.KNOB_State_Flag s.brightnessLevel * 100 / 255 ≤ 100 := by
    omega
  have hlen := fmt_d_length _ hp0 hp100
  have hsn : snprintf_d 4 (steppedBrightness s.KNOB_State_Flag s.brightnessLevel * 100 / 255) =
      fmt_d (steppedBrightness s.KNOB_State_Flag s.brightnessLevel * 100 / 255) := by
    unfold snprintf_d
    exact List.take_of_length_le hlen
  rw [hlev]
  refine ⟨?_, hmap, h0, h255, hp0, hp100, hlen, hsn, ?_, ?_, ?_⟩
  · apply emitted_append
    rw [hset, hmap, hsn]
  · rw [map_percent 0 (le_refl 0)]
    rfl
  · rw [map_percent 255 (by omega)]
    rfl
  · intro a b ha hab _
    rw [map_percent a ha, map_percent b (by omega)]
    omega

/-- Witness for C8: the first DECREMENT event at full brightness shows 98 percent. -/
theorem brightness_percent_bounds_witness :
    emitted (knobStep KNOB_DECREMENT (initialState false 0))
        (handle_knob_for_brightness (knobStep KNOB_DECREMENT (initialState false 0))) =
      [Effect.arc_set_value 98, Effect.Display_Brightness 250,
        Effect.label_set_text ['9', '8']] :=
  (brightness_percent_bounds (knobStep KNOB_DECREMENT (initialState false 0))
    (by decide) (by decide) rfl).1

/-- C5: for a menu index `i` in [0, 5], one call of `handle_knob_for_menu` with
the trigger flag set returns a state whose index is `min (i + 1) 5` on
INCREMENT, `max (i - 1) 0` on DECREMENT and `i` on any other direction (a clamp:
5 stays 5 on INCREMENT, 0 stays 0 on DECREMENT), with the flag cleared in every
branch and `currentScreen` and `brightnessLevel` kept; with the flag false the
state is returned unchanged whatever the direction value is. -/
theorem menu_step_clamped (s : State) (hlo : 0 ≤ s.menuIndex) (hhi : s.menuIndex ≤ 5) :
    ∃ t : State, handle_knob_for_menu s = some t ∧
      (s.KNOB_Trigger_Flag = true → s.KNOB_State_Flag = KNOB_INCREMENT →
        t.menuIndex = min (s.menuIndex + 1) 5) ∧
      (s.KNOB_Trigger_Flag = true → s.KNOB_State_Flag = KNOB_DECREMENT →
        t.menuIndex = max (s.menuIndex - 1) 0) ∧
      (s.KNOB_Trigger_Flag = true → s.KNOB_State_Flag ≠ KNOB_INCREMENT →
        s.KNOB_State_Flag ≠ KNOB_DECREMENT → t.menuIndex = s.menuIndex) ∧
      (s.KNOB_Trigger_Flag = true → t.KNOB_Trigger_Flag = false) ∧
      t.currentScreen = s.currentScreen ∧
      t.brightnessLevel = s.brightnessLevel ∧
      (s.KNOB_Trigger_Flag = false → t = s) ∧
      (s.KNOB_Trigger_Flag = false → ∀ d : Nat,
        handle_knob_for_menu { s with KNOB_State_Flag := d } =
          some { s with KNOB_State_Flag := d }) := by
  cases hf : s.KNOB_Trigger_Flag
  · refine ⟨s, handle_knob_for_menu_clear s hf, ?_, ?_, ?_, ?_, rfl, rfl, fun _ => rfl, ?_⟩
    · intro h
      cases h
    · intro h
      cases h
    · intro h
      cases h
    · intro h
      cases h
    · intro _ d
      exact handle_knob_for_menu_clear _ rfl
  · refine ⟨_, handle_knob_for_menu_set s hf hlo hhi, ?_, ?_, ?_, ?_, rfl, rfl, ?_, ?_⟩
    · intro _ hd
      simp only [hd, steppedMenuIndex, TOTAL_MENU_ICONS, KNOB_INCREMENT, KNOB_DECREMENT,
        min_def, true_and]
      split_ifs <;> omega
    · intro _ hd
      simp only [hd, steppedMenuIndex, TOTAL_MENU_ICONS, KNOB_INCREMENT, KNOB_DECREMENT,
        max_def, true_and]
      split_ifs <;> omega
    · intro _ h1 h2
      simp [steppedMenuIndex, h1, h2]
    · intro _
      rfl
    · intro h
      cases h
    · intro h
      cases h

/-- Witness for C5: at the last icon an INCREMENT event keeps the index at 5 and
clears the flag. -/
theorem menu_step_clamped_witness :
    ∃ t : State,
      handle_knob_for_menu
        (knobStep KNOB_INCREMENT { initialState false 0 with menuIndex := 5 }) = some t ∧
      t.menuIndex = min (5 + 1) 5 ∧ t.KNOB_Trigger_Flag = false := by
  obtain ⟨t, h1, h2, -, -, h5, -⟩ :=
    menu_step_clamped (knobStep KNOB_INCREMENT { initialState false 0 with menuIndex := 5 })
      (by decide) (by decide)
  exact ⟨t, h1, h2 rfl rfl, h5 rfl⟩

/-- C2: the predicate `0 ≤ menuIndex ≤ TOTAL_MENU_ICONS - 1 = 5` and
`MIN_BRIGHTNESS = 0 ≤ brightnessLevel ≤ MAX_BRIGHTNESS = 255` holds in the
initial state, every pass of `loop` started in a state satisfying it completes
in a state satisfying it (for every trigger flag, every `KNOB_State_Flag`
value, every effect of the decoder scan on the two, every button level and
clock value), and so does every finite sequence of passes. -/
theorem range_invariant (flag : Bool) (dir : Nat) :
    TOTAL_MENU_ICONS - 1 = 5 ∧ MIN_BRIGHTNESS = 0 ∧ MAX_BRIGHTNESS = 255 ∧
    Inv (initialState flag dir) ∧
    (∀ (i : TickInput) (s : State), Inv s → ∃ t : State, loop i s = some t ∧ Inv t) ∧
    (∀ (is : List TickInput) (s : State), Inv s →
      ∃ t : State, runLoop is s = some t ∧ Inv t) ∧
    (∀ is : List TickInput, ∃ t : State,
      runLoop is (switchScreen Screen.WATCH (initialState flag dir)) = some t ∧ Inv t) := by
  have h0 : Inv (initialState flag dir) := by
    simp [Inv, initialState, TOTAL_MENU_ICONS, MIN_BRIGHTNESS, MAX_BRIGHTNESS]
  refine ⟨rfl, rfl, rfl, h0, loop_Inv, runLoop_Inv, fun is => ?_⟩
  obtain ⟨-, s2, s3, -⟩ := switchScreen_fields Screen.WATCH (initialState flag dir)
  exact runLoop_Inv is _ (Inv_of_fields h0 s2 s3)

/-- Witness for C2: a pass of `loop` on the menu screen at the last icon, with
an INCREMENT event raised and the button pressed, ends inside the ranges. -/
theorem range_invariant_witness :
    ∃ t : State,
      loop ⟨1, KNOB_Logical_Scan_Loop (some KNOB_INCREMENT), Level.LOW, 1000⟩
        { initialState false 0 with currentScreen := Screen.MENU, menuIndex := 5 } = some t ∧
      Inv t :=
  (range_invariant false 0).2.2.2.2.1
    ⟨1, KNOB_Logical_Scan_Loop (some KNOB_INCREMENT), Level.LOW, 1000⟩
    { initialState false 0 with currentScreen := Screen.MENU, menuIndex := 5 }
    (by simp [Inv, initialState, TOTAL_MENU_ICONS, MIN_BRIGHTNESS, MAX_BRIGHTNESS])

/-- C6 (as the code behaves): a pass of `loop` that starts on WATCH or WEATHER
and accepts no button press completes and leaves `currentScreen`, `menuIndex`,
`brightnessLevel` and `lastKnobKeyPressTime` unchanged; the trigger flag and the
direction end the pass exactly as the decoder scan left them, so a pending
event is not cleared: the flag is still set at the end of the pass. -/
theorem pending_event_kept_off_menu (i : TickInput) (s : State)
    (hs : s.currentScreen = Screen.WATCH ∨ s.currentScreen = Screen.WEATHER)
    (hk : ¬(i.key = Level.LOW ∧ sub32 i.now s.lastKnobKeyPressTime ≥ 200)) :
    ∃ t : State, loop i s = some t ∧
      t.currentScreen = s.currentScreen ∧
      t.menuIndex = s.menuIndex ∧
      t.brightnessLevel = s.brightnessLevel ∧
      t.lastKnobKeyPressTime = s.lastKnobKeyPressTime ∧
      t.KNOB_Trigger_Flag = (i.scan (s.KNOB_Trigger_Flag, s.KNOB_State_Flag)).1 ∧
      t.KNOB_State_Flag = (i.scan (s.KNOB_Trigger_Flag, s.KNOB_State_Flag)).2 ∧
      (∀ step : Option Nat, i.scan = KNOB_Logical_Scan_Loop step →
        s.KNOB_Trigger_Flag = true → t.KNOB_Trigger_Flag = true) ∧
      (i.scan = KNOB_Logical_Scan_Loop none → s.KNOB_Trigger_Flag = true →
        t.KNOB_Trigger_Flag = true ∧ t.KNOB_State_Flag = s.KNOB_State_Flag) := by
  obtain ⟨c1, c2, c3, c4, c5, c6⟩ := scanned_fields i s
  refine ⟨scanned i s, loop_idle_off_menu i s hs hk, c1, c2, c3, c6, c4, c5, ?_, ?_⟩
  · intro step hscan hf
    rw [c4, hscan, hf]
    cases step <;> rfl
  · intro hscan hf
    rw [c4, c5, hscan, hf]
    exact ⟨rfl, rfl⟩

/-- Witness for C6: on the watch face with an INCREMENT event pending and the
button released, the flag is still set after the pass. -/
theorem pending_event_kept_off_menu_witness :
    ∃ t : State,
      loop ⟨0, KNOB_Logical_Scan_Loop none, Level.HIGH, 1000⟩
        (initialState true KNOB_INCREMENT) = some t ∧
      t.currentScreen = Screen.WATCH ∧ t.KNOB_Trigger_Flag = true := by
  obtain ⟨t, h1, h2, -, -, -, -, -, h8, -⟩ :=
    pending_event_kept_off_menu ⟨0, KNOB_Logical_Scan_Loop none, Level.HIGH, 1000⟩
      (initialState true KNOB_INCREMENT) (Or.inl rfl) (by decide)
  exact ⟨t, h1, h2, h8 none rfl rfl⟩

/-- C6 (counterexample to the claim as stated): on WATCH with an INCREMENT event
pending, the button released and no new step from the decoder, the pass ends
with the trigger flag still true, not cleared. -/
theorem pending_flag_not_cleared_on_watch :
    (initialState true KNOB_INCREMENT).currentScreen = Screen.WATCH ∧
    (initialState true KNOB_INCREMENT).KNOB_Trigger_Flag = true ∧
    (initialState true KNOB_INCREMENT).KNOB_State_Flag = KNOB_INCREMENT ∧
    (isKnobKeyPressed Level.HIGH 1000 (initialState true KNOB_INCREMENT)).1 = false ∧
    (loop ⟨0, KNOB_Logical_Scan_Loop none, Level.HIGH, 1000⟩
      (initialState true KNOB_INCREMENT)).map (fun t => t.KNOB_Trigger_Flag) = some true ∧
    ¬((loop ⟨0, KNOB_Logical_Scan_Loop none, Level.HIGH, 1000⟩
      (initialState true KNOB_INCREMENT)).map (fun t => t.KNOB_Trigger_Flag) = some false) := by
  decide

/-- C10: a direction event pending on WATCH or WEATHER survives the press that
opens the menu and is applied on the next pass.  For a state on WATCH or
WEATHER with the menu index in its range, a pass with the flag set and direction
`d` after the scan and an accepted press ends on MENU with the index unchanged
and the flag still set; the next pass, whose scan reports no new step and which
accepts no press, clears the flag and moves the index to `i + 1` for INCREMENT
with `i < 5` and to `i - 1` for DECREMENT with `i > 0`. -/
theorem stale_event_applied_after_switch (i1 i2 : TickInput) (s : State) (d : Nat)
    (hs : s.currentScreen = Screen.WATCH ∨ s.currentScreen = Screen.WEATHER)
    (hlo : 0 ≤ s.menuIndex) (hhi : s.menuIndex ≤ 5)
    (hscan1 : i1.scan (s.KNOB_Trigger_Flag, s.KNOB_State_Flag) = (true, d))
    (hpress : i1.key = Level.LOW ∧ sub32 i1.now s.lastKnobKeyPressTime ≥ 200)
    (hscan2 : i2.scan (true, d) = (true, d))
    (hno : ¬(i2.key = Level.LOW ∧ sub32 i2.now i1.now ≥ 200)) :
    ∃ s1 s2 : State,
      loop i1 s = some s1 ∧
      s1.currentScreen = Screen.MENU ∧
      s1.menuIndex = s.menuIndex ∧
      s1.KNOB_Trigger_Flag = true ∧
      s1.KNOB_State_Flag = d ∧
      loop i2 s1 = some s2 ∧
      s2.currentScreen = Screen.MENU ∧
      s2.KNOB_Trigger_Flag = false ∧
      (d = KNOB_INCREMENT → s.menuIndex < 5 → s2.menuIndex = s.menuIndex + 1) ∧
      (d = KNOB_DECREMENT → 0 < s.menuIndex → s2.menuIndex = s.menuIndex - 1) := by
  obtain ⟨s1, hl1, a1, a2, -, a4, a5, a6⟩ := loop_press_off_menu_fields i1 s hs hpress
  rw [hscan1] at a4 a5
  have hsc : i2.scan (s1.KNOB_Trigger_Flag, s1.KNOB_State_Flag) = (true, d) := by
    rw [a4, a5]
    exact hscan2
  obtain ⟨s2, hl2, b1, b2, -, b4⟩ := loop_idle_menu_fields i2 s1 a1
    (by rw [a2]; exact hlo) (by rw [a2]; exact hhi) (by rw [hsc])
    (by rw [a6]; exact hno)
  rw [hsc, a2] at b2
  refine ⟨s1, s2, hl1, a1, a2, a4, a5, hl2, b1, b4, ?_, ?_⟩
  · intro hd hi
    rw [b2]
    simp only [hd, steppedMenuIndex, TOTAL_MENU_ICONS]
    rw [if_pos ⟨trivial, by omega⟩]
  · intro hd hi
    rw [b2]
    simp only [hd, steppedMenuIndex, TOTAL_MENU_ICONS, KNOB_DECREMENT, KNOB_INCREMENT]
    rw [if_neg (by omega), if_pos ⟨trivial, by omega⟩]

/-- Witness for C10: from the watch face with an INCREMENT event pending, a press
opens the menu with icon 0 focused and the flag set; the next pass moves the
focus to icon 1 and clears the flag. -/
theorem stale_event_applied_after_switch_witness :
    ∃ s1 s2 : State,
      loop ⟨0, KNOB_Logical_Scan_Loop none, Level.LOW, 1000⟩
        (initialState true KNOB_INCREMENT) = some s1 ∧
      s1.currentScreen = Screen.MENU ∧ s1.menuIndex = 0 ∧ s1.KNOB_Trigger_Flag = true ∧
      loop ⟨0, KNOB_Logical_Scan_Loop none, Level.LOW, 1005⟩ s1 = some s2 ∧
      s2.KNOB_Trigger_Flag = false ∧ s2.menuIndex = 0 + 1 := by
  obtain ⟨s1, s2, h1, h2, h3, h4, -, h6, -, h8, h9, -⟩ :=
    stale_event_applied_after_switch
      ⟨0, KNOB_Logical_Scan_Loop none, Level.LOW, 1000⟩
      ⟨0, KNOB_Logical_Scan_Loop none, Level.LOW, 1005⟩
      (initialState true KNOB_INCREMENT) KNOB_INCREMENT
      (Or.inl rfl) (by decide) (by decide) rfl (by decide) rfl (by decide)
  exact ⟨s1, s2, h1, h2, h3, h4, h6, h8, h9 rfl (by decide)⟩

/-- C7 (as the code behaves): a run of reads with the button LOW whose first
read comes at least 200 ms after the last accepted press and whose other reads
all fall less than 200 ms after the first (clock readings below `2 ^ 32`, none
before the first) returns true exactly once, on its first read, and stores that
reading as the time of the last accepted press; a further LOW read of the same
run made 200 ms or more after the first returns true again. -/
theorem short_press_accepted_once (s : State) (t0 : Nat) (ts : List Nat)
    (h0 : s.lastKnobKeyPressTime ≤ t0) (h200 : 200 ≤ t0 - s.lastKnobKeyPressTime)
    (hclk : t0 < 2 ^ 32)
    (hwin : ∀ t ∈ ts, t0 ≤ t ∧ t < t0 + 200 ∧ t < 2 ^ 32) :
    (pollKey (activeRun (t0 :: ts)) s).1 = true :: List.replicate ts.length false ∧
    (pollKey (activeRun (t0 :: ts)) s).1.count true = 1 ∧
    (pollKey (activeRun (t0 :: ts)) s).2.lastKnobKeyPressTime = t0 ∧
    (∀ t : Nat, t0 + 200 ≤ t → t < 2 ^ 32 →
      (pollKey (activeRun (t0 :: ts ++ [t])) s).1 =
        true :: List.replicate ts.length false ++ [true]) := by
  have hsub := sub32_of_le t0 s.lastKnobKeyPressTime h0 hclk
  obtain ⟨k1, k2⟩ := isKnobKeyPressed_true_of Level.LOW t0 s ⟨rfl, by rw [hsub]; exact h200⟩
  have hrest := pollKey_in_window (activeRun ts) { s with lastKnobKeyPressTime := t0 }
    (by
      intro c hc
      obtain ⟨t, ht, rfl⟩ := List.mem_map.mp hc
      exact hwin t ht)
  have hlen : (activeRun ts).length = ts.length := by simp [activeRun]
  have hpoll : pollKey (activeRun (t0 :: ts)) s =
      (true :: List.replicate ts.length false, { s with lastKnobKeyPressTime := t0 }) := by
    show pollKey ((Level.LOW, t0) :: activeRun ts) s = _
    simp only [pollKey, k1, k2, hrest, hlen]
  refine ⟨by rw [hpoll], ?_, by rw [hpoll], ?_⟩
  · rw [hpoll]
    simp [List.count_cons, List.count_replicate]
  · intro t ht1 ht2
    have happ : activeRun (t0 :: ts ++ [t]) = activeRun (t0 :: ts) ++ [(Level.LOW, t)] := by
      simp [activeRun]
    have hsub2 := sub32_of_le t t0 (by omega) ht2
    obtain ⟨j1, -⟩ := isKnobKeyPressed_true_of Level.LOW t { s with lastKnobKeyPressTime := t0 }
      ⟨rfl, by
        show sub32 t t0 ≥ 200
        rw [hsub2]
        omega⟩
    rw [happ, pollKey_append, hpoll]
    simp only [pollKey, j1]

/-- Witness for C7: a press read at 1000, 1050 and 1100 ms after boot is accepted
once, at 1000 ms. -/
theorem short_press_accepted_once_witness :
    (pollKey (activeRun [1000, 1050, 1100]) (initialState false 0)).1 = [true, false, false] :=
  (short_press_accepted_once (initialState false 0) 1000 [1050, 1100]
    (by decide) (by decide) (by decide) (by decide)).1

/-- C7 (counterexample to the claim as stated): the button is HIGH at 900 ms,
LOW at 1000, 1100 and 1200 ms, HIGH again at 1300 ms; the single run of LOW
reads returns true twice, at 1000 and at 1200 ms. -/
theorem held_button_accepted_twice :
    (pollKey ((Level.HIGH, 900) :: activeRun [1000, 1100, 1200] ++ [(Level.HIGH, 1300)])
      (initialState false 0)).1 = [false, true, false, true, false] ∧
    (pollKey (activeRun [1000, 1100, 1200])
      (pollKey [(Level.HIGH, 900)] (initialState false 0)).2).1.count true = 2 ∧
    ¬((pollKey (activeRun [1000, 1100, 1200])
      (pollKey [(Level.HIGH, 900)] (initialState false 0)).2).1.count true = 1) := by
  decide

/-- C9: in a sequence of `switchScreen` calls started with `is_first_load` true,
the calls before the first entry to WATCH start no animation and create no
timer and leave the flag true; the first entry to WATCH sets the hands, starts
the three hand animations and creates the hand-update timer and its start
timer, and leaves `is_first_load` false; after it the flag stays false and no
call starts an animation or creates a timer, and every entry to WATCH made with
the flag false only loads the screen and sets the hand positions. -/
theorem first_load_setup_once (s : State) (pre post : List Screen)
    (hfirst : s.is_first_load = true) (hpre : Screen.WATCH ∉ pre) :
    switchScreens (pre ++ Screen.WATCH :: post) s =
      switchScreens post (switchScreen Screen.WATCH (switchScreens pre s)) ∧
    (switchScreens pre s).is_first_load = true ∧
    (∀ e ∈ emitted s (switchScreens pre s), isSetupEffect e = false) ∧
    emitted (switchScreens pre s) (switchScreen Screen.WATCH (switchScreens pre s)) =
      watchFirstLoadEffects (switchScreens pre s) ∧
    (watchFirstLoadEffects (switchScreens pre s)).countP (fun e => isSetupEffect e) = 5 ∧
    (switchScreen Screen.WATCH (switchScreens pre s)).is_first_load = false ∧
    (switchScreens post (switchScreen Screen.WATCH (switchScreens pre s))).is_first_load
      = false ∧
    (∀ e ∈ emitted (switchScreen Screen.WATCH (switchScreens pre s))
        (switchScreens post (switchScreen Screen.WATCH (switchScreens pre s))),
      isSetupEffect e = false) ∧
    (∀ u : State, u.is_first_load = false →
      emitted u (switchScreen Screen.WATCH u) = watchReloadEffects u ∧
      (∀ e ∈ watchReloadEffects u, isSetupEffect e = false) ∧
      (switchScreen Screen.WATCH u).is_first_load = false) := by
  obtain ⟨f1, es1, t1, n1⟩ := switchScreens_before_watch pre s hpre
  have hf1 : (switchScreens pre s).is_first_load = true := f1.trans hfirst
  obtain ⟨t2, f2⟩ := switchScreen_watch_first (switchScreens pre s) hf1
  obtain ⟨f3, es3, t3, n3⟩ :=
    switchScreens_later_no_setup post (switchScreen Screen.WATCH (switchScreens pre s)) f2
  refine ⟨?_, hf1, ?_, emitted_append _ _ _ t2, rfl, f2, f3, ?_, ?_⟩
  · rw [switchScreens_append]
    rfl
  · rw [emitted_append _ _ _ t1]
    exact n1
  · rw [emitted_append _ _ _ t3]
    exact n3
  · intro u hu
    obtain ⟨a1, a2⟩ := switchScreen_watch_later u hu
    exact ⟨emitted_append _ _ _ a1, watchReloadEffects_no_setup u, a2⟩

/-- Witness for C9: after start-up the sequence MENU, WATCH, MENU, WATCH runs the
set-up on its first WATCH entry and leaves `is_first_load` false. -/
theorem first_load_setup_once_witness :
    (switchScreen Screen.WATCH (switchScreens [Screen.MENU] (initialState false 0))).is_first_load
      = false ∧
    (switchScreens [Screen.MENU, Screen.WATCH]
      (switchScreen Screen.WATCH
        (switchScreens [Screen.MENU] (initialState false 0)))).is_first_load = false :=
  ⟨(first_load_setup_once (initialState false 0) [Screen.MENU] [Screen.MENU, Screen.WATCH]
      rfl (by decide)).2.2.2.2.2.1,
    (first_load_setup_once (initialState false 0) [Screen.MENU] [Screen.MENU, Screen.WATCH]
      rfl (by decide)).2.2.2.2.2.2.1⟩

end TEncode
